import Mathlib

/-!
Shallow embedding of the Socket class of the Svelte-5-SocketIO repository
(src/lib/Socket.svelte.js and the typed variant Socket.ts).

The class wraps a socket.io-client transport.  We model:
  - the reactive status record SocketStatus;
  - the bounded message log (SocketMessage list);
  - the custom listener registry (Map event -> callback list);
  - the transport handle as a list of registered handlers together with a
    connected flag, a count of transport-level connect calls and the list of
    outbound emissions.

Application callbacks are identified by natural numbers (function identity).
A callback environment of type Nat -> Payload -> Bool tells which callback
throws on which payload.  Invocations are recorded in a trace; console.warn
and console.error calls and exceptions escaping the class are counted.
Timestamps (new Date()) are natural numbers supplied by the event that
creates them.
-/

/-- Connection status record, mirroring the SocketStatus type of the source. -/
structure SocketStatus where
  connected : Bool
  connecting : Bool
  disconnected : Bool
  error : Option String
  reconnectAttempts : Nat
  lastConnected : Option Nat
  lastDisconnected : Option Nat
deriving DecidableEq, Repr

/-- Payloads carried by transport events and by the custom lifecycle events
the class emits (timestamp objects, reason objects, error objects,
attempt-number objects, and opaque application data). -/
inductive Payload where
  | raw (n : Nat)
  | str (s : String)
  | timeInfo (timestamp : Nat)
  | disconnectedInfo (reason : String) (timestamp : Nat)
  | errorInfo (error : String) (timestamp : Nat)
  | attemptInfo (attemptNumber : Nat) (timestamp : Nat)
deriving DecidableEq, Repr

/-- Reads the string payload of a transport signal (disconnect reason or
error message); non-string payloads read as the empty string (falsy). -/
def Payload.strVal : Payload → String
  | .str s => s
  | _ => ""

/-- Reads the numeric payload of a transport signal (attempt number). -/
def Payload.natVal : Payload → Nat
  | .raw n => n
  | .attemptInfo n _ => n
  | _ => 0

/-- One entry of the message log: event name, data, timestamp. -/
structure SocketMessage where
  event : String
  data : Payload
  timestamp : Nat
deriving DecidableEq, Repr

/-- The seven internal lifecycle handlers installed by _setupEventHandlers. -/
inductive SigKind where
  | connect | disconnect | connectError | reconnect
  | reconnectAttempt | reconnectError | reconnectFailed
deriving DecidableEq, Repr

/-- A handler registered on the transport (socket.io listener list).
Function identity matters for socket.off(event, fn), so each closure kind is
a distinct constructor:
  - lifecycle: the seven arrow functions of _setupEventHandlers;
  - onWrapper cb: the anonymous wrapper created by Socket.on for callback cb
    (logs the message, trims to 100, then invokes cb);
  - onceWrapper cb: the anonymous wrapper created by Socket.once
    (logs without trimming, invokes cb, auto-removed on fire);
  - connectResolver / errorResolver: the transient onConnect / onError
    closures registered by a pending connect() promise;
  - direct cb: a raw application callback registered directly on the
    transport.  The class never does this (it always wraps), which is exactly
    why socket.off(event, callback) never matches the wrapper. -/
inductive THandler where
  | lifecycle (k : SigKind)
  | onWrapper (cb : Nat)
  | onceWrapper (cb : Nat)
  | connectResolver (pid : Nat)
  | errorResolver (pid : Nat)
  | direct (cb : Nat)
deriving DecidableEq, Repr

/-- The transport handle (the socket.io-client socket object), reduced to the
observable interface the class consumes: the ordered listener list, its own
connected flag, the number of times connect() was invoked on it, and the
outbound emissions with their optional acknowledgment callback. -/
structure Transport where
  handlers : List (String × THandler)
  connected : Bool
  connectCalls : Nat
  emits : List (String × Payload × Option Nat)
deriving DecidableEq, Repr

/-- Full state of one Socket instance, plus instrumentation:
calls is the trace of application-callback invocations, errorsLogged counts
console.error calls from the catch in _emitCustomEvent, warnings counts
console.warn calls from send, uncaught counts exceptions that escape the
class to the runtime, rejectedConnects counts connect() promises rejected
because the transport handle is missing. -/
structure Socket where
  socket : Option Transport
  status : SocketStatus
  messages : List SocketMessage
  eventListeners : List (String × List Nat)
  calls : List (Nat × Payload)
  errorsLogged : Nat
  warnings : Nat
  uncaught : Nat
  rejectedConnects : Nat
deriving DecidableEq, Repr

/-- Lookup in the listener registry (JS Map.get). -/
def lookupEL : List (String × List Nat) → String → Option (List Nat)
  | [], _ => none
  | p :: rest, k => if p.1 = k then some p.2 else lookupEL rest k

/-- Update in the listener registry (JS Map.set on an existing key keeps the
insertion position; on a fresh key it appends). -/
def setEL : List (String × List Nat) → String → List Nat → List (String × List Nat)
  | [], k, v => [(k, v)]
  | p :: rest, k, v => if p.1 = k then (k, v) :: rest else p :: setEL rest k v

/-- Deletion in the listener registry (JS Map.delete). -/
def deleteEL : List (String × List Nat) → String → List (String × List Nat)
  | [], _ => []
  | p :: rest, k => if p.1 = k then rest else p :: deleteEL rest k

/-- Array.prototype.splice at indexOf: removes the first occurrence only. -/
def removeFirstNat : List Nat → Nat → List Nat
  | [], _ => []
  | a :: rest, x => if a = x then rest else a :: removeFirstNat rest x

/-- The registered callbacks for an event (empty when none). -/
def listenersOf (st : Socket) (name : String) : List Nat :=
  (lookupEL st.eventListeners name).getD []

/-- The transport handlers registered for an event, in registration order. -/
def handlersFor : List (String × THandler) → String → List THandler
  | [], _ => []
  | p :: rest, ev => if p.1 = ev then p.2 :: handlersFor rest ev else handlersFor rest ev

/-- socket.off(event): removes every handler registered for the event. -/
def removeAllForEvent : List (String × THandler) → String → List (String × THandler)
  | [], _ => []
  | p :: rest, ev =>
      if p.1 = ev then removeAllForEvent rest ev else p :: removeAllForEvent rest ev

/-- socket.off(event, fn): removes the handlers that are the function fn
registered under this event (reference identity). -/
def removeExact : List (String × THandler) → String → THandler → List (String × THandler)
  | [], _, _ => []
  | p :: rest, ev, h =>
      if p = (ev, h) then removeExact rest ev h else p :: removeExact rest ev h

/-- Self-removal of a fired once-wrapper: the transport removes the single
wrapper object that fired (first matching occurrence). -/
def removeOnceEntry : List (String × THandler) → String → Nat → List (String × THandler)
  | [], _, _ => []
  | p :: rest, ev, cb =>
      if p = (ev, THandler.onceWrapper cb) then rest
      else p :: removeOnceEntry rest ev cb

/-- Removal of the transient promise handlers of connect() with ticket pid
(the two socket.off calls inside onConnect / onError). -/
def removeResolverEntries : List (String × THandler) → Nat → List (String × THandler)
  | [], _ => []
  | p :: rest, pid =>
      if p = ("connect", THandler.connectResolver pid)
         ∨ p = ("connect_error", THandler.errorResolver pid) then
        removeResolverEntries rest pid
      else p :: removeResolverEntries rest pid

/-- messages.push followed by the 100-cap trim of Socket.on:
if (this.messages.length > 100) this.messages.shift(). -/
def pushTrim (msgs : List SocketMessage) (m : SocketMessage) : List SocketMessage :=
  let l := msgs ++ [m]
  if 100 < l.length then l.tail else l

/-- error.message with the default of the || fallback: the empty string is
the falsy case. -/
def orElseStr (s d : String) : String := if s = "" then d else s

/-- Invocation loop of _emitCustomEvent: listeners.forEach with the callback
invocation wrapped in try/catch; a throw is logged via console.error and the
loop continues. -/
def runCustomListeners (env : Nat → Payload → Bool) (data : Payload) :
    List Nat → Socket → Socket
  | [], st => st
  | cb :: rest, st =>
      runCustomListeners env data rest
        { st with
          calls := st.calls ++ [(cb, data)],
          errorsLogged := st.errorsLogged + (if env cb data then 1 else 0) }

/-- Socket._emitCustomEvent: invokes every registered listener for the event
with the payload, catching and logging listener exceptions. -/
def Socket.emitCustomEvent (env : Nat → Payload → Bool) (name : String)
    (data : Payload) (st : Socket) : Socket :=
  runCustomListeners env data (listenersOf st name) st

/-- Status mutation performed by each of the seven handlers of
_setupEventHandlers, as a pure function of the signal payload, the current
time and the previous status. -/
def lifecycleStatus : SigKind → Payload → Nat → SocketStatus → SocketStatus
  | .connect, _, now, s =>
      { s with connected := true, connecting := false, disconnected := false,
               error := none, reconnectAttempts := 0, lastConnected := some now }
  | .disconnect, data, now, s =>
      let s := { s with connected := false, connecting := false,
                        disconnected := true, lastDisconnected := some now }
      if data.strVal = "io server disconnect" then
        { s with error := some "Server disconnected the client" }
      else s
  | .connectError, data, _, s =>
      { s with connected := false, connecting := false, disconnected := true,
               error := some (orElseStr data.strVal "Connection error") }
  | .reconnect, data, _, s =>
      { s with reconnectAttempts := data.natVal }
  | .reconnectAttempt, data, _, s =>
      { s with connecting := true, reconnectAttempts := data.natVal }
  | .reconnectError, data, _, s =>
      { s with error := some (orElseStr data.strVal "Reconnection error") }
  | .reconnectFailed, _, _, s =>
      { s with connecting := false,
               error := some "Failed to reconnect after maximum attempts" }

/-- The application-facing event name emitted by each lifecycle handler. -/
def lifecycleEventName : SigKind → String
  | .connect => "connected"
  | .disconnect => "disconnected"
  | .connectError => "connectError"
  | .reconnect => "reconnected"
  | .reconnectAttempt => "tryConnect"
  | .reconnectError => "reconnectError"
  | .reconnectFailed => "reconnectFailed"

/-- The payload each lifecycle handler passes to _emitCustomEvent. -/
def lifecycleEventPayload : SigKind → Payload → Nat → Payload
  | .connect, _, now => .timeInfo now
  | .disconnect, data, now => .disconnectedInfo data.strVal now
  | .connectError, data, now => .errorInfo (orElseStr data.strVal "Connection error") now
  | .reconnect, data, now => .attemptInfo data.natVal now
  | .reconnectAttempt, data, now => .attemptInfo data.natVal now
  | .reconnectError, data, now => .errorInfo (orElseStr data.strVal "Reconnection error") now
  | .reconnectFailed, _, now => .timeInfo now

/-- Body of a lifecycle handler: mutate the status record, then emit the
corresponding custom event through the listener registry. -/
def handleLifecycle (env : Nat → Payload → Bool) (now : Nat) (k : SigKind)
    (data : Payload) (st : Socket) : Socket :=
  Socket.emitCustomEvent env (lifecycleEventName k) (lifecycleEventPayload k data now)
    { st with status := lifecycleStatus k data now st.status }

/-- Runs one transport handler on a delivered event.  Returns the new state
and true when the handler returned normally, false when an exception escaped
it (the on/once wrappers invoke the application callback without try/catch,
so a throwing callback aborts the handler after the log entry was pushed). -/
def runHandler (env : Nat → Payload → Bool) (now : Nat) (ev : String)
    (data : Payload) (h : THandler) (st : Socket) : Socket × Bool :=
  match h with
  | .lifecycle k => (handleLifecycle env now k data st, true)
  | .onWrapper cb =>
      let st := { st with messages := pushTrim st.messages (SocketMessage.mk ev data now) }
      let st := { st with calls := st.calls ++ [(cb, data)] }
      (st, !(env cb data))
  | .onceWrapper cb =>
      let st :=
        match st.socket with
        | some t => { st with socket := some { t with handlers := removeOnceEntry t.handlers ev cb } }
        | none => st
      let st := { st with messages := st.messages ++ [SocketMessage.mk ev data now] }
      let st := { st with calls := st.calls ++ [(cb, data)] }
      (st, !(env cb data))
  | .connectResolver pid =>
      match st.socket with
      | some t => ({ st with socket := some { t with handlers := removeResolverEntries t.handlers pid } }, true)
      | none => (st, true)
  | .errorResolver pid =>
      match st.socket with
      | some t => ({ st with socket := some { t with handlers := removeResolverEntries t.handlers pid } }, true)
      | none => (st, true)
  | .direct cb =>
      let st := { st with calls := st.calls ++ [(cb, data)] }
      (st, !(env cb data))

/-- Dispatch loop of the transport emitter over the snapshot of the handlers
registered for the event: handlers run in registration order; an exception
escaping one handler aborts delivery to the rest and reaches the runtime. -/
def runHandlers (env : Nat → Payload → Bool) (now : Nat) (ev : String)
    (data : Payload) : List THandler → Socket → Socket
  | [], st => st
  | h :: rest, st =>
      match runHandler env now ev data h st with
      | (st, true) => runHandlers env now ev data rest st
      | (st, false) => { st with uncaught := st.uncaught + 1 }

/-- The transport delivers an event to its registered handlers (the handler
list is snapshot at emission start, as the emitter iterates over a copy). -/
def emitTransport (env : Nat → Payload → Bool) (now : Nat) (ev : String)
    (data : Payload) (st : Socket) : Socket :=
  match st.socket with
  | none => st
  | some t => runHandlers env now ev data (handlersFor t.handlers ev) st

/-- The seven transport lifecycle signals. -/
inductive Sig where
  | connect
  | disconnect (reason : String)
  | connectError (msg : String)
  | reconnect (n : Nat)
  | reconnectAttempt (n : Nat)
  | reconnectError (msg : String)
  | reconnectFailed
deriving DecidableEq, Repr

/-- Transport event name of a lifecycle signal. -/
def sigEventName : Sig → String
  | .connect => "connect"
  | .disconnect _ => "disconnect"
  | .connectError _ => "connect_error"
  | .reconnect _ => "reconnect"
  | .reconnectAttempt _ => "reconnect_attempt"
  | .reconnectError _ => "reconnect_error"
  | .reconnectFailed => "reconnect_failed"

/-- Payload a lifecycle signal carries to the handlers. -/
def sigPayload : Sig → Payload
  | .connect => .raw 0
  | .disconnect r => .str r
  | .connectError m => .str m
  | .reconnect n => .raw n
  | .reconnectAttempt n => .raw n
  | .reconnectError m => .str m
  | .reconnectFailed => .raw 0

/-- Effect of a lifecycle signal on the connected flag of the transport
itself (a connect or successful reconnect means the link is up; a disconnect
or failed connect attempt means it is down; the remaining signals leave it). -/
def sigConn : Sig → Bool → Bool
  | .connect, _ => true
  | .disconnect _, _ => false
  | .connectError _, _ => false
  | .reconnect _, _ => true
  | .reconnectAttempt _, c => c
  | .reconnectError _, c => c
  | .reconnectFailed, c => c

/-- The transport fires a lifecycle signal: its own connected flag is
updated, then the signal is dispatched to the registered handlers. -/
def deliverSig (env : Nat → Payload → Bool) (now : Nat) (sig : Sig) (st : Socket) : Socket :=
  match st.socket with
  | none => st
  | some t =>
      emitTransport env now (sigEventName sig) (sigPayload sig)
        { st with socket := some { t with connected := sigConn sig t.connected } }

/-- Event names reserved for lifecycle signals: the transport never delivers
an application event under these names (socket.io rejects reserved events in
EVENT packets; the manager-level reconnection names only ever originate from
the transport itself). -/
def reservedEvents : List String :=
  ["connect", "disconnect", "connect_error", "reconnect",
   "reconnect_attempt", "reconnect_error", "reconnect_failed"]

/-- The transport delivers a server-sent application event. -/
def deliverApp (env : Nat → Payload → Bool) (now : Nat) (ev : String)
    (data : Payload) (st : Socket) : Socket :=
  if ev ∈ reservedEvents then st else emitTransport env now ev data st

/-- Socket.on: records the callback in the listener registry, then registers
a fresh anonymous wrapper on the transport which logs the message (with the
100-cap trim) and invokes the callback. -/
def Socket.on (ev : String) (cb : Nat) (st : Socket) : Socket :=
  let el := if (lookupEL st.eventListeners ev).isSome then st.eventListeners
            else st.eventListeners ++ [(ev, [])]
  let el := setEL el ev ((lookupEL el ev).getD [] ++ [cb])
  let st := { st with eventListeners := el }
  match st.socket with
  | some t => { st with socket := some { t with handlers := t.handlers ++ [(ev, .onWrapper cb)] } }
  | none => st

/-- Socket.off with a callback: splices the callback out of the registry
entry (first occurrence, reference identity) and asks the transport to
remove the raw callback, which was never registered there.  This follows
the typed variant (Socket.ts), whose optional chaining skips the
transport call when the handle is nulled; the untyped variant without the
guard is Socket.offJS below. -/
def Socket.offCb (ev : String) (cb : Nat) (st : Socket) : Socket :=
  let ls := (lookupEL st.eventListeners ev).getD []
  let st :=
    if cb ∈ ls then
      { st with eventListeners := setEL st.eventListeners ev (removeFirstNat ls cb) }
    else st
  match st.socket with
  | some t => { st with socket := some { t with handlers := removeExact t.handlers ev (.direct cb) } }
  | none => st

/-- Socket.off without a callback: deletes the registry entry and detaches
every transport handler for the event. -/
def Socket.offAll (ev : String) (st : Socket) : Socket :=
  let st := { st with eventListeners := deleteEL st.eventListeners ev }
  match st.socket with
  | some t => { st with socket := some { t with handlers := removeAllForEvent t.handlers ev } }
  | none => st

/-- Socket.once: registers a one-shot wrapper on the transport which logs the
message without the 100-cap trim and invokes the callback; the listener
registry is not touched. -/
def Socket.once (ev : String) (cb : Nat) (st : Socket) : Socket :=
  match st.socket with
  | some t => { st with socket := some { t with handlers := t.handlers ++ [(ev, .onceWrapper cb)] } }
  | none => st

/-- Socket.send: warns and returns false when the status is not connected;
otherwise forwards one emission (with the optional acknowledgment callback)
to the transport and returns true. -/
def Socket.send (ev : String) (data : Payload) (ack : Option Nat) (st : Socket) :
    Socket × Bool :=
  if st.status.connected then
    match st.socket with
    | some t => ({ st with socket := some { t with emits := t.emits ++ [(ev, data, ack)] } }, true)
    | none => (st, true)
  else
    ({ st with warnings := st.warnings + 1 }, false)

/-- Socket.connect: returns immediately when already connected or
connecting; otherwise marks the status connecting, registers the transient
promise handlers (ticket pid) and invokes connect() on the transport.  A
missing transport handle rejects the promise. -/
def Socket.connect (st : Socket) : Socket :=
  if st.status.connected || st.status.connecting then st
  else
    let st := { st with status := { st.status with connecting := true, disconnected := false, error := none } }
    match st.socket with
    | none => { st with rejectedConnects := st.rejectedConnects + 1 }
    | some t =>
        let pid := t.connectCalls
        let t := { t with
          handlers := t.handlers ++ [("connect", .connectResolver pid), ("connect_error", .errorResolver pid)],
          connectCalls := t.connectCalls + 1 }
        { st with socket := some t }

/-- Socket.disconnect: requests transport teardown; socket.io fires the
disconnect signal synchronously when the link was up. -/
def Socket.disconnect (env : Nat → Payload → Bool) (now : Nat) (st : Socket) : Socket :=
  match st.socket with
  | none => st
  | some t =>
      if t.connected then
        emitTransport env now "disconnect" (.str "io client disconnect")
          { st with socket := some { t with connected := false } }
      else st

/-- Socket.destroy: disconnects the transport, removes all transport
listeners, nulls the handle, clears the registry and the message log. -/
def Socket.destroy (env : Nat → Payload → Bool) (now : Nat) (st : Socket) : Socket :=
  match st.socket with
  | none => { st with eventListeners := [], messages := [] }
  | some _ =>
      let st := Socket.disconnect env now st
      { st with socket := none, eventListeners := [], messages := [] }

/-- Socket.clearMessages. -/
def Socket.clearMessages (st : Socket) : Socket :=
  { st with messages := [] }

/-- Socket.on of the untyped variant (Socket.svelte.js): the transport handle
is dereferenced without the optional-chaining guard, so a destroyed instance
raises a TypeError, modelled as none. -/
def Socket.onJS (ev : String) (cb : Nat) (st : Socket) : Option Socket :=
  match st.socket with
  | none => none
  | some _ => some (Socket.on ev cb st)

/-- Socket.off of the untyped variant (Socket.svelte.js): after the registry
splice it calls this.socket.off(event, callback) without the
optional-chaining guard, so a destroyed instance raises a TypeError,
modelled as none. -/
def Socket.offJS (ev : String) (cb : Nat) (st : Socket) : Option Socket :=
  match st.socket with
  | none => none
  | some _ => some (Socket.offCb ev cb st)

/-- Initial status set by the constructor. -/
def initStatus : SocketStatus :=
  { connected := false, connecting := false, disconnected := true,
    error := none, reconnectAttempts := 0, lastConnected := none, lastDisconnected := none }

/-- The seven internal handlers in the registration order of
_setupEventHandlers. -/
def initHandlers : List (String × THandler) :=
  [("connect", .lifecycle .connect),
   ("disconnect", .lifecycle .disconnect),
   ("connect_error", .lifecycle .connectError),
   ("reconnect", .lifecycle .reconnect),
   ("reconnect_attempt", .lifecycle .reconnectAttempt),
   ("reconnect_error", .lifecycle .reconnectError),
   ("reconnect_failed", .lifecycle .reconnectFailed)]

/-- Transport state right after io(url, options) with autoConnect false. -/
def initTransport : Transport :=
  { handlers := initHandlers, connected := false, connectCalls := 0, emits := [] }

/-- State of a freshly constructed Socket instance. -/
def initSocket : Socket :=
  { socket := some initTransport, status := initStatus, messages := [],
    eventListeners := [], calls := [], errorsLogged := 0, warnings := 0,
    uncaught := 0, rejectedConnects := 0 }

/-- One observable interaction with the instance: a transport signal, a
transport-delivered application event, or a public method call. -/
inductive Op where
  | sig (now : Nat) (s : Sig)
  | deliver (now : Nat) (ev : String) (data : Payload)
  | on (ev : String) (cb : Nat)
  | off (ev : String) (cb : Nat)
  | offAll (ev : String)
  | once (ev : String) (cb : Nat)
  | send (ev : String) (data : Payload) (ack : Option Nat)
  | connect
  | disconnect (now : Nat)
  | destroy (now : Nat)
  | clearMessages
deriving DecidableEq, Repr

/-- Interpretation of one interaction. -/
def applyOp (env : Nat → Payload → Bool) (op : Op) (st : Socket) : Socket :=
  match op with
  | .sig now s => deliverSig env now s st
  | .deliver now ev data => deliverApp env now ev data st
  | .on ev cb => Socket.on ev cb st
  | .off ev cb => Socket.offCb ev cb st
  | .offAll ev => Socket.offAll ev st
  | .once ev cb => Socket.once ev cb st
  | .send ev data ack => (Socket.send ev data ack st).1
  | .connect => Socket.connect st
  | .disconnect now => Socket.disconnect env now st
  | .destroy now => Socket.destroy env now st
  | .clearMessages => Socket.clearMessages st

/-- Runs a sequence of interactions from a state. -/
def runOps (env : Nat → Payload → Bool) (ops : List Op) (st : Socket) : Socket :=
  ops.foldl (fun s op => applyOp env op s) st

/-- Runs a sequence of timed lifecycle signals from a state. -/
def runSigs (env : Nat → Payload → Bool) (sigs : List (Nat × Sig)) (st : Socket) : Socket :=
  sigs.foldl (fun s p => deliverSig env p.1 p.2 s) st

/-- The benign callback environment: no application callback throws. -/
def noThrow : Nat → Payload → Bool := fun _ _ => false

/-- The status invariant claimed by the spec: at most one of connected and
connecting, and disconnected exactly when neither holds. -/
def statusInvB (s : SocketStatus) : Bool :=
  (!(s.connected && s.connecting)) && (s.disconnected == (!s.connected && !s.connecting))

/-- Number of transport-level connect attempts made so far. -/
def connectCallsOf (st : Socket) : Nat :=
  match st.socket with
  | some t => t.connectCalls
  | none => 0

/-- Recognizes the reconnect_attempt signal. -/
def isAttempt : Sig → Bool
  | .reconnectAttempt _ => true
  | _ => false

/-- The internal handler a lifecycle signal is routed to. -/
def kindOf : Sig → SigKind
  | .connect => .connect
  | .disconnect _ => .disconnect
  | .connectError _ => .connectError
  | .reconnect _ => .reconnect
  | .reconnectAttempt _ => .reconnectAttempt
  | .reconnectError _ => .reconnectError
  | .reconnectFailed => .reconnectFailed

/-- Recognizes a once() registration among interactions. -/
def isOnceOp : Op → Bool
  | .once _ _ => true
  | _ => false

/-- Recognizes a once-wrapper among transport handlers. -/
def isOnceW : THandler → Bool
  | .onceWrapper _ => true
  | _ => false

/-- Recognizes a raw callback registered directly on the transport. -/
def isDirectH : THandler → Bool
  | .direct _ => true
  | _ => false

/-- Shape of a state reachable from construction by lifecycle signals alone:
the transport still carries exactly the seven internal handlers, the
listener registry is empty, the claimed status invariant holds and no
connect() call is pending. -/
def GoodSig (st : Socket) : Prop :=
  (∃ c cc em, st.socket = some (Transport.mk initHandlers c cc em)) ∧
  st.eventListeners = [] ∧
  statusInvB st.status = true ∧
  st.status.connecting = false

/-- No once-wrapper is registered on the transport. -/
def NoOnceState (st : Socket) : Prop :=
  ∀ t, st.socket = some t → ∀ p ∈ t.handlers, isOnceW p.2 = false

/-- No raw callback is registered directly on the transport (the class
always registers wrappers). -/
def NoDirectState (st : Socket) : Prop :=
  ∀ t, st.socket = some t → ∀ p ∈ t.handlers, isDirectH p.2 = false

/-- The invariant behind the message-log capacity bound: the log holds at
most 100 entries and no once-wrapper (which would bypass the trim) is
registered. -/
def MsgBound (st : Socket) : Prop :=
  st.messages.length ≤ 100 ∧ NoOnceState st

/-! ### General lemmas about the delivery machinery -/

/-- Closed form of the _emitCustomEvent loop: every listener is invoked in
order with the payload, each throwing listener is logged, and no other field
of the state changes. -/
theorem runCustomListeners_eq (env : Nat → Payload → Bool) (data : Payload) :
    ∀ (ls : List Nat) (st : Socket),
      runCustomListeners env data ls st =
        { st with
          calls := st.calls ++ ls.map (fun cb => (cb, data)),
          errorsLogged := st.errorsLogged + (ls.filter (fun cb => env cb data)).length } := by
  intro ls
  induction ls with
  | nil => intro st; simp [runCustomListeners]
  | cons cb rest ih =>
      intro st
      rw [runCustomListeners, ih]
      cases st
      by_cases h : env cb data <;>
        (simp [h, List.filter_cons, List.append_assoc]; try omega)

/-! ### Claim C1 -/

/-- C1 counterexample: the claim fails as stated.  Delivering a single
reconnect_attempt signal to a freshly constructed coordinator leaves
disconnected true while setting connecting true (the handler never clears
disconnected), so disconnected is not equivalent to neither-flag. -/
theorem c1_counterexample :
    statusInvB (runSigs noThrow [(1, Sig.reconnectAttempt 1)] initSocket).status = false := by
  decide

/-! ### Claim C2 -/

set_option maxRecDepth 100000 in
/-- C2 counterexample: the claim fails as stated.  Registering 101 once()
listeners for an event and delivering that event once appends 101 log
entries, because the once-wrapper pushes to the log without the 100-cap
trim. -/
theorem c2_counterexample :
    ((runOps noThrow
        ((List.range 101).map (fun k => Op.once "b" k) ++ [Op.deliver 0 "b" (Payload.raw 0)])
        initSocket).messages).length = 101 := by
  decide

/-! ### Claim C3 -/

/-- C3: evaluation of the code at the failing input.  After on("chat", cb)
followed by off("chat", cb), a transport delivery of "chat" still invokes cb
and still appends a log entry: off passes the raw callback to
socket.off(event, fn), but the transport holds the anonymous wrapper, so
nothing is detached. -/
theorem c3_bug_eval :
    (runOps noThrow
      [Op.sig 0 Sig.connect, Op.on "chat" 0, Op.off "chat" 0, Op.deliver 1 "chat" (Payload.raw 5)]
      initSocket).calls = [(0, Payload.raw 5)] ∧
    (runOps noThrow
      [Op.sig 0 Sig.connect, Op.on "chat" 0, Op.off "chat" 0, Op.deliver 1 "chat" (Payload.raw 5)]
      initSocket).messages = [SocketMessage.mk "chat" (Payload.raw 5) 1] := by
  decide

/-! ### Claim C4 -/

/-- C4 counterexample: the claim fails as stated for transport-delivered
events.  With callbacks 0 and 1 registered for "chat" and callback 0
throwing, a delivery of "chat" lets the exception escape (uncaught becomes
1) and never invokes callback 1. -/
theorem c4_counterexample :
    (runOps (fun cb _ => cb == 0)
      [Op.sig 0 Sig.connect, Op.on "chat" 0, Op.on "chat" 1, Op.deliver 1 "chat" (Payload.raw 7)]
      initSocket).uncaught = 1 ∧
    (runOps (fun cb _ => cb == 0)
      [Op.sig 0 Sig.connect, Op.on "chat" 0, Op.on "chat" 1, Op.deliver 1 "chat" (Payload.raw 7)]
      initSocket).calls = [(0, Payload.raw 7)] := by
  decide

/-- C4 amended: exception isolation holds exactly on the custom-event path.
_emitCustomEvent invokes every registered listener in order, logs each
throwing listener via console.error, lets no exception escape and leaves the
message log, status and registry untouched; the on()-wrapper instead logs
the message first and then invokes the callback with no try/catch, so the
callback result decides whether the wrapper completes normally. -/
theorem c4_amended (env : Nat → Payload → Bool) (name : String) (data : Payload)
    (st : Socket) (now : Nat) (ev : String) (cb : Nat) :
    Socket.emitCustomEvent env name data st =
      { st with
        calls := st.calls ++ (listenersOf st name).map (fun c => (c, data)),
        errorsLogged := st.errorsLogged + ((listenersOf st name).filter (fun c => env c data)).length } ∧
    (runHandler env now ev data (THandler.onWrapper cb) st).1.messages =
      pushTrim st.messages (SocketMessage.mk ev data now) ∧
    (runHandler env now ev data (THandler.onWrapper cb) st).2 = !(env cb data) := by
  refine ⟨?_, ?_, ?_⟩
  · rw [Socket.emitCustomEvent, runCustomListeners_eq]
  · simp [runHandler]
  · simp [runHandler]

/-! ### Claim C5 -/

/-- C5: connect() is idempotent while pending or connected.  When the status
is already connected or connecting the call returns with no state change and
no transport-level attempt; otherwise two calls in immediate succession
perform exactly one transport-level connect call. -/
theorem c5_connect_idempotent (s : Socket) :
    ((s.status.connected || s.status.connecting) = true → Socket.connect s = s) ∧
    (s.status.connected = false → s.status.connecting = false →
      ∀ t, s.socket = some t →
        connectCallsOf (Socket.connect (Socket.connect s)) = t.connectCalls + 1) := by
  constructor
  · intro h
    simp [Socket.connect, h]
  · intro h1 h2 t ht
    simp [Socket.connect, h1, h2, ht, connectCallsOf]

/-- C5 witness: on an already-connected instance connect() is the identity;
on a fresh instance two immediate connect() calls make exactly one
transport-level attempt. -/
theorem c5_witness :
    Socket.connect { initSocket with status := { initStatus with connected := true } } =
      { initSocket with status := { initStatus with connected := true } } ∧
    connectCallsOf (Socket.connect (Socket.connect initSocket)) = initTransport.connectCalls + 1 :=
  ⟨(c5_connect_idempotent { initSocket with status := { initStatus with connected := true } }).1 rfl,
   (c5_connect_idempotent initSocket).2 rfl rfl initTransport rfl⟩

/-! ### Claim C6 -/

/-- C6 amended: send() while the status is not connected warns and returns
false with no transport emission; while connected with a live transport
handle it appends exactly one emission carrying the optional acknowledgment
callback and returns true.  In the reachable corner where the handle was
nulled while the status still reads connected, send() returns true with
zero emissions (see the counterexample). -/
theorem c6_send (s : Socket) (ev : String) (data : Payload) (ack : Option Nat) :
    (s.status.connected = false →
      Socket.send ev data ack s = ({ s with warnings := s.warnings + 1 }, false)) ∧
    (∀ t, s.status.connected = true → s.socket = some t →
      Socket.send ev data ack s =
        ({ s with socket := some { t with emits := t.emits ++ [(ev, data, ack)] } }, true)) := by
  constructor
  · intro h
    simp [Socket.send, h]
  · intro t h ht
    simp [Socket.send, h, ht]

/-- C6 witness: a fresh (disconnected) instance refuses the send with a
warning; a connected instance forwards exactly one emission. -/
theorem c6_witness :
    Socket.send "x" (Payload.raw 0) none initSocket =
      ({ initSocket with warnings := initSocket.warnings + 1 }, false) ∧
    Socket.send "x" (Payload.raw 0) none { initSocket with status := { initStatus with connected := true } } =
      ({ { initSocket with status := { initStatus with connected := true } } with
          socket := some { initTransport with emits := initTransport.emits ++ [("x", Payload.raw 0, none)] } },
        true) :=
  ⟨(c6_send initSocket "x" (Payload.raw 0) none).1 rfl,
   (c6_send { initSocket with status := { initStatus with connected := true } } "x" (Payload.raw 0) none).2
      initTransport rfl rfl⟩

/-! ### Claim C7 -/

/-- C7: the connect-success handler, unconditionally of prior status, sets
connected, clears connecting and disconnected, clears the error, resets
reconnectAttempts to 0, stamps lastConnected with the current time, and
emits the application-facing connected event through the listener registry;
in particular a fresh coordinator receiving the connect signal ends in
exactly that status. -/
theorem c7_connect_success (env : Nat → Payload → Bool) (now : Nat) (data : Payload) (st : Socket) :
    handleLifecycle env now SigKind.connect data st =
      { st with
        status := { st.status with
                    connected := true, connecting := false, disconnected := false,
                    error := none, reconnectAttempts := 0, lastConnected := some now },
        calls := st.calls ++ (listenersOf st "connected").map (fun cb => (cb, Payload.timeInfo now)),
        errorsLogged := st.errorsLogged +
          ((listenersOf st "connected").filter (fun cb => env cb (Payload.timeInfo now))).length } ∧
    (deliverSig env now Sig.connect initSocket).status =
      SocketStatus.mk true false false none 0 (some now) none := by
  constructor
  · rw [handleLifecycle, Socket.emitCustomEvent, runCustomListeners_eq]
    rfl
  · rfl

/-! ### Claim C8 -/

/-- C8 counterexample: the claim fails as stated.  A successful-reconnection
signal with attempt number 3 delivered to a coordinator in the initial
(disconnected) state does not move it to the Connected state: connected
stays false and disconnected stays true, although reconnectAttempts is set
to 3. -/
theorem c8_counterexample :
    (deliverSig noThrow 4 (Sig.reconnect 3) initSocket).status.connected = false ∧
    (deliverSig noThrow 4 (Sig.reconnect 3) initSocket).status.disconnected = true ∧
    (deliverSig noThrow 4 (Sig.reconnect 3) initSocket).status.reconnectAttempts = 3 := by
  decide

/-- C8 amended: the reconnect handler sets reconnectAttempts to the reported
attempt number and emits the application-facing reconnected event, leaving
every other status field (in particular the connected, connecting and
disconnected flags) unchanged; the Connected state is only reached through
the separate connect signal. -/
theorem c8_amended (env : Nat → Payload → Bool) (now n : Nat) (st : Socket) :
    handleLifecycle env now SigKind.reconnect (Payload.raw n) st =
      { st with
        status := { st.status with reconnectAttempts := n },
        calls := st.calls ++ (listenersOf st "reconnected").map (fun cb => (cb, Payload.attemptInfo n now)),
        errorsLogged := st.errorsLogged +
          ((listenersOf st "reconnected").filter (fun cb => env cb (Payload.attemptInfo n now))).length } := by
  rw [handleLifecycle, Socket.emitCustomEvent, runCustomListeners_eq]
  rfl

/-! ### Claim C1 -/

/-- Reduction of a signal delivery on a state reachable by signals alone:
the transport still carries exactly the seven internal handlers and the
listener registry is empty, so the delivery updates the transport flag and
runs the one matching internal handler. -/
theorem deliverSig_eq_good (env : Nat → Payload → Bool) (now : Nat) (sig : Sig)
    (c : Bool) (cc : Nat) (em : List (String × Payload × Option Nat))
    (status : SocketStatus) (msgs : List SocketMessage) (calls : List (Nat × Payload))
    (el w u r : Nat) :
    deliverSig env now sig
      (Socket.mk (some (Transport.mk initHandlers c cc em)) status msgs [] calls el w u r) =
      Socket.mk (some (Transport.mk initHandlers (sigConn sig c) cc em))
        (lifecycleStatus (kindOf sig) (sigPayload sig) now status) msgs [] calls el w u r := by
  cases sig <;> rfl

/-- The status invariant is preserved by every internal handler other than
the reconnect_attempt one, as long as no connect() call is pending. -/
theorem lifecycleStatus_inv (sig : Sig) (now : Nat) (status : SocketStatus)
    (hinv : statusInvB status = true) (hcg : status.connecting = false)
    (ha : isAttempt sig = false) :
    statusInvB (lifecycleStatus (kindOf sig) (sigPayload sig) now status) = true ∧
    (lifecycleStatus (kindOf sig) (sigPayload sig) now status).connecting = false := by
  obtain ⟨cn, cg, dc, er, ra, lc, ld⟩ := status
  simp only at hcg
  subst hcg
  cases sig with
  | connect => simp [lifecycleStatus, kindOf, sigPayload, statusInvB]
  | disconnect reason =>
      by_cases hr : (Payload.str reason).strVal = "io server disconnect" <;>
        simp [lifecycleStatus, kindOf, sigPayload, statusInvB, hr]
  | connectError msg => simp [lifecycleStatus, kindOf, sigPayload, statusInvB]
  | reconnect n =>
      simp [lifecycleStatus, kindOf, sigPayload, statusInvB] at hinv ⊢
      exact hinv
  | reconnectAttempt n => simp [isAttempt] at ha
  | reconnectError msg =>
      simp [lifecycleStatus, kindOf, sigPayload, statusInvB] at hinv ⊢
      exact hinv
  | reconnectFailed =>
      simp [lifecycleStatus, kindOf, sigPayload, statusInvB] at hinv ⊢
      exact hinv

/-- Signal-only runs that contain no reconnect_attempt keep a state of the
good shape, in particular the claimed status invariant. -/
theorem runSigs_good (env : Nat → Payload → Bool) :
    ∀ (sigs : List (Nat × Sig)) (st : Socket), GoodSig st →
      (∀ p ∈ sigs, isAttempt p.2 = false) → GoodSig (runSigs env sigs st) := by
  intro sigs
  induction sigs with
  | nil => intro st hg _; exact hg
  | cons p rest ih =>
      intro st hg hall
      obtain ⟨⟨c, cc, em, hsock⟩, hel, hinv, hcg⟩ := hg
      obtain ⟨sock, status, msgs, el, calls, e, w, u, r⟩ := st
      simp only at hsock hel
      subst hsock
      subst hel
      have hstep : GoodSig (deliverSig env p.1 p.2
          (Socket.mk (some (Transport.mk initHandlers c cc em)) status msgs [] calls e w u r)) := by
        rw [deliverSig_eq_good]
        have hs := lifecycleStatus_inv p.2 p.1 status hinv hcg (hall p (by simp))
        exact ⟨⟨sigConn p.2 c, cc, em, rfl⟩, rfl, hs.1, hs.2⟩
      have hrest : ∀ q ∈ rest, isAttempt q.2 = false := fun q hq => hall q (by simp [hq])
      have := ih _ hstep hrest
      simpa [runSigs] using this

/-- C1 amended: for every sequence of transport lifecycle signals that
contains no reconnect_attempt, at most one of connected and connecting is
true at every observation point and disconnected holds exactly when neither
does.  A reconnect_attempt signal breaks the claim as stated: its handler
sets connecting without clearing disconnected (or connected). -/
theorem c1_amended (sigs : List (Nat × Sig))
    (h : ∀ p ∈ sigs, isAttempt p.2 = false) :
    statusInvB (runSigs noThrow sigs initSocket).status = true :=
  (runSigs_good noThrow sigs initSocket
    ⟨⟨false, 0, [], rfl⟩, rfl, rfl, rfl⟩ h).2.2.1

/-- C1 witness: a connect followed by a disconnect signal keeps the
invariant. -/
theorem c1_witness :
    (∀ p ∈ [((0 : Nat), Sig.connect), (1, Sig.disconnect "transport close")], isAttempt p.2 = false) ∧
    statusInvB (runSigs noThrow [((0 : Nat), Sig.connect), (1, Sig.disconnect "transport close")] initSocket).status = true :=
  ⟨by decide, c1_amended [((0 : Nat), Sig.connect), (1, Sig.disconnect "transport close")] (by decide)⟩

/-! ### Claim C2 -/

/-- Handlers selected for an event were registered under that event. -/
theorem mem_handlersFor {l : List (String × THandler)} {ev : String} {h : THandler}
    (hm : h ∈ handlersFor l ev) : (ev, h) ∈ l := by
  induction l with
  | nil => simp [handlersFor] at hm
  | cons p rest ih =>
      by_cases hp : p.1 = ev
      · rw [handlersFor, if_pos hp] at hm
        rcases List.mem_cons.mp hm with h1 | h2
        · obtain ⟨p1, p2⟩ := p
          simp only at hp h1
          subst hp
          subst h1
          exact List.mem_cons_self _ _
        · exact List.mem_cons_of_mem _ (ih h2)
      · rw [handlersFor, if_neg hp] at hm
        exact List.mem_cons_of_mem _ (ih hm)

/-- Detaching all handlers of an event only removes entries. -/
theorem mem_removeAllForEvent {l : List (String × THandler)} {ev : String}
    {p : String × THandler} (hm : p ∈ removeAllForEvent l ev) : p ∈ l := by
  induction l with
  | nil => simp [removeAllForEvent] at hm
  | cons q rest ih =>
      rw [removeAllForEvent] at hm
      split at hm
      · exact List.mem_cons_of_mem _ (ih hm)
      · rcases List.mem_cons.mp hm with h1 | h2
        · simp [h1]
        · exact List.mem_cons_of_mem _ (ih h2)

/-- Detaching one exact handler only removes entries. -/
theorem mem_removeExact {l : List (String × THandler)} {ev : String} {h : THandler}
    {p : String × THandler} (hm : p ∈ removeExact l ev h) : p ∈ l := by
  induction l with
  | nil => simp [removeExact] at hm
  | cons q rest ih =>
      rw [removeExact] at hm
      split at hm
      · exact List.mem_cons_of_mem _ (ih hm)
      · rcases List.mem_cons.mp hm with h1 | h2
        · simp [h1]
        · exact List.mem_cons_of_mem _ (ih h2)

/-- Self-removal of a fired once-wrapper only removes entries. -/
theorem mem_removeOnceEntry {l : List (String × THandler)} {ev : String} {cb : Nat}
    {p : String × THandler} (hm : p ∈ removeOnceEntry l ev cb) : p ∈ l := by
  induction l with
  | nil => simp [removeOnceEntry] at hm
  | cons q rest ih =>
      rw [removeOnceEntry] at hm
      split at hm
      · exact List.mem_cons_of_mem _ hm
      · rcases List.mem_cons.mp hm with h1 | h2
        · simp [h1]
        · exact List.mem_cons_of_mem _ (ih h2)

/-- Removal of the transient connect() handlers only removes entries. -/
theorem mem_removeResolverEntries {l : List (String × THandler)} {pid : Nat}
    {p : String × THandler} (hm : p ∈ removeResolverEntries l pid) : p ∈ l := by
  induction l with
  | nil => simp [removeResolverEntries] at hm
  | cons q rest ih =>
      rw [removeResolverEntries] at hm
      split at hm
      · exact List.mem_cons_of_mem _ (ih hm)
      · rcases List.mem_cons.mp hm with h1 | h2
        · simp [h1]
        · exact List.mem_cons_of_mem _ (ih h2)

/-- The push-then-trim of Socket.on keeps the log within 100 entries. -/
theorem pushTrim_length {msgs : List SocketMessage} {m : SocketMessage}
    (h : msgs.length ≤ 100) : (pushTrim msgs m).length ≤ 100 := by
  simp only [pushTrim]
  split <;>
    (simp only [List.length_tail, List.length_append, List.length_cons, List.length_nil] at *;
     omega)

/-- The custom-event path touches only the invocation trace and the error
counter. -/
theorem emitCustomEvent_frame (env : Nat → Payload → Bool) (name : String)
    (data : Payload) (st : Socket) :
    (Socket.emitCustomEvent env name data st).messages = st.messages ∧
    (Socket.emitCustomEvent env name data st).socket = st.socket ∧
    (Socket.emitCustomEvent env name data st).status = st.status ∧
    (Socket.emitCustomEvent env name data st).eventListeners = st.eventListeners := by
  rw [Socket.emitCustomEvent, runCustomListeners_eq]
  exact ⟨rfl, rfl, rfl, rfl⟩

/-- A lifecycle handler leaves the log, the transport handle and the
registry alone. -/
theorem handleLifecycle_frame (env : Nat → Payload → Bool) (now : Nat) (k : SigKind)
    (data : Payload) (st : Socket) :
    (handleLifecycle env now k data st).messages = st.messages ∧
    (handleLifecycle env now k data st).socket = st.socket ∧
    (handleLifecycle env now k data st).eventListeners = st.eventListeners := by
  rw [handleLifecycle]
  have h := emitCustomEvent_frame env (lifecycleEventName k) (lifecycleEventPayload k data now)
    { st with status := lifecycleStatus k data now st.status }
  exact ⟨h.1, h.2.1, h.2.2.2⟩

/-- One transport handler that is not a once-wrapper keeps the log bound. -/
theorem runHandler_msgBound (env : Nat → Payload → Bool) (now : Nat) (ev : String)
    (data : Payload) (h : THandler) (st : Socket) (hh : isOnceW h = false)
    (hb : MsgBound st) : MsgBound (runHandler env now ev data h st).1 := by
  obtain ⟨hl, hn⟩ := hb
  cases h with
  | lifecycle k =>
      refine ⟨?_, ?_⟩
      · show (handleLifecycle env now k data st).messages.length ≤ 100
        rw [(handleLifecycle_frame env now k data st).1]
        exact hl
      · show NoOnceState (handleLifecycle env now k data st)
        intro t ht p hp
        rw [(handleLifecycle_frame env now k data st).2.1] at ht
        exact hn t ht p hp
  | onWrapper cb =>
      exact ⟨pushTrim_length hl, fun t ht p hp => hn t ht p hp⟩
  | onceWrapper cb => simp [isOnceW] at hh
  | connectResolver pid =>
      rcases hsock : st.socket with _ | t
      · simp only [runHandler, hsock]
        exact ⟨hl, hn⟩
      · simp only [runHandler, hsock]
        refine ⟨hl, ?_⟩
        intro t' ht' p hp
        simp only [Option.some.injEq] at ht'
        subst ht'
        exact hn t hsock p (mem_removeResolverEntries hp)
  | errorResolver pid =>
      rcases hsock : st.socket with _ | t
      · simp only [runHandler, hsock]
        exact ⟨hl, hn⟩
      · simp only [runHandler, hsock]
        refine ⟨hl, ?_⟩
        intro t' ht' p hp
        simp only [Option.some.injEq] at ht'
        subst ht'
        exact hn t hsock p (mem_removeResolverEntries hp)
  | direct cb =>
      exact ⟨hl, fun t ht p hp => hn t ht p hp⟩

/-- A dispatch loop over handlers none of which is a once-wrapper keeps the
log bound. -/
theorem runHandlers_msgBound (env : Nat → Payload → Bool) (now : Nat) (ev : String)
    (data : Payload) : ∀ (hs : List THandler) (st : Socket),
    (∀ h ∈ hs, isOnceW h = false) → MsgBound st →
    MsgBound (runHandlers env now ev data hs st) := by
  intro hs
  induction hs with
  | nil => intro st _ hb; exact hb
  | cons h rest ih =>
      intro st hall hb
      have hb1 := runHandler_msgBound env now ev data h st (hall h (by simp)) hb
      rw [runHandlers]
      rcases hr : runHandler env now ev data h st with ⟨st1, ok⟩
      rw [hr] at hb1
      cases ok
      · exact ⟨hb1.1, fun t ht p hp => hb1.2 t ht p hp⟩
      · exact ih st1 (fun h2 hh2 => hall h2 (by simp [hh2])) hb1

/-- A transport delivery keeps the log bound when no once-wrapper is
registered. -/
theorem emitTransport_msgBound (env : Nat → Payload → Bool) (now : Nat) (ev : String)
    (data : Payload) (st : Socket) (hb : MsgBound st) :
    MsgBound (emitTransport env now ev data st) := by
  rcases hsock : st.socket with _ | t
  · simpa [emitTransport, hsock] using hb
  · simp only [emitTransport, hsock]
    refine runHandlers_msgBound env now ev data _ st ?_ hb
    intro h hh
    exact hb.2 t hsock (ev, h) (mem_handlersFor hh)

/-- Every interaction other than a once() registration keeps the log bound. -/
theorem applyOp_msgBound (env : Nat → Payload → Bool) (op : Op) (st : Socket)
    (hop : isOnceOp op = false) (hb : MsgBound st) : MsgBound (applyOp env op st) := by
  obtain ⟨hl, hn⟩ := hb
  cases op
  next now s =>
      show MsgBound (deliverSig env now s st)
      rcases hsock : st.socket with _ | t
      · simp only [deliverSig, hsock]
        exact ⟨hl, hn⟩
      · simp only [deliverSig, hsock]
        apply emitTransport_msgBound
        refine ⟨hl, ?_⟩
        intro t' ht' p hp
        simp only [Option.some.injEq] at ht'
        subst ht'
        exact hn t hsock p hp
  next now ev data =>
      show MsgBound (deliverApp env now ev data st)
      rw [deliverApp]
      split
      · exact ⟨hl, hn⟩
      · exact emitTransport_msgBound env now ev data st ⟨hl, hn⟩
  next ev cb =>
      show MsgBound (Socket.on ev cb st)
      rcases hsock : st.socket with _ | t <;> simp only [Socket.on, hsock]
      · exact ⟨hl, fun t' ht' p hp => hn t' (by simpa using ht') p hp⟩
      · refine ⟨hl, ?_⟩
        intro t' ht' p hp
        simp only [Option.some.injEq] at ht'
        subst ht'
        rcases List.mem_append.mp hp with h1 | h2
        · exact hn t hsock p h1
        · simp only [List.mem_singleton] at h2
          subst h2
          rfl
  next ev cb =>
      show MsgBound (Socket.offCb ev cb st)
      by_cases hmem : cb ∈ (lookupEL st.eventListeners ev).getD [] <;>
        rcases hsock : st.socket with _ | t <;>
          simp only [Socket.offCb, hmem, hsock, if_true, if_false]
      · exact ⟨hl, fun t' ht' p hp => by simp at ht'⟩
      · refine ⟨hl, ?_⟩
        intro t' ht' p hp
        simp only [Option.some.injEq] at ht'
        subst ht'
        exact hn t hsock p (mem_removeExact hp)
      · exact ⟨hl, fun t' ht' p hp => hn t' ht' p hp⟩
      · refine ⟨hl, ?_⟩
        intro t' ht' p hp
        simp only [Option.some.injEq] at ht'
        subst ht'
        exact hn t hsock p (mem_removeExact hp)
  next ev =>
      show MsgBound (Socket.offAll ev st)
      rcases hsock : st.socket with _ | t <;> simp only [Socket.offAll, hsock]
      · exact ⟨hl, fun t' ht' p hp => hn t' (by simpa using ht') p hp⟩
      · refine ⟨hl, ?_⟩
        intro t' ht' p hp
        simp only [Option.some.injEq] at ht'
        subst ht'
        exact hn t hsock p (mem_removeAllForEvent hp)
  next ev cb => simp [isOnceOp] at hop
  next ev data ack =>
      show MsgBound (Socket.send ev data ack st).1
      rw [Socket.send]
      split
      · rcases hsock : st.socket with _ | t <;> simp only [hsock]
        · exact ⟨hl, hn⟩
        · refine ⟨hl, ?_⟩
          intro t' ht' p hp
          simp only [Option.some.injEq] at ht'
          subst ht'
          exact hn t hsock p hp
      · exact ⟨hl, fun t' ht' p hp => hn t' (by simpa using ht') p hp⟩
  next =>
      show MsgBound (Socket.connect st)
      rw [Socket.connect]
      split
      · exact ⟨hl, hn⟩
      · rcases hsock : st.socket with _ | t <;> simp only [hsock]
        · exact ⟨hl, fun t' ht' p hp => hn t' (by simpa using ht') p hp⟩
        · refine ⟨hl, ?_⟩
          intro t' ht' p hp
          simp only [Option.some.injEq] at ht'
          subst ht'
          rcases List.mem_append.mp hp with h1 | h2
          · exact hn t hsock p h1
          · rcases List.mem_cons.mp h2 with h3 | h4
            · subst h3; rfl
            · simp only [List.mem_singleton] at h4
              subst h4
              rfl
  next now =>
      show MsgBound (Socket.disconnect env now st)
      rcases hsock : st.socket with _ | t <;> simp only [Socket.disconnect, hsock]
      · exact ⟨hl, hn⟩
      · split
        · apply emitTransport_msgBound
          refine ⟨hl, ?_⟩
          intro t' ht' p hp
          simp only [Option.some.injEq] at ht'
          subst ht'
          exact hn t hsock p hp
        · exact ⟨hl, hn⟩
  next now =>
      show MsgBound (Socket.destroy env now st)
      rcases hsock : st.socket with _ | t <;> simp only [Socket.destroy, hsock]
      · exact ⟨by simp, fun t' ht' p hp => hn t' (by simpa [hsock] using ht') p hp⟩
      · exact ⟨by simp, fun t' ht' p hp => by simp at ht'⟩
  next =>
      show MsgBound (Socket.clearMessages st)
      exact ⟨by simp [Socket.clearMessages], fun t' ht' p hp => hn t' ht' p hp⟩

/-- Runs without once() registrations keep the log bound. -/
theorem runOps_msgBound (env : Nat → Payload → Bool) :
    ∀ (ops : List Op) (st : Socket), (∀ op ∈ ops, isOnceOp op = false) →
      MsgBound st → MsgBound (runOps env ops st) := by
  intro ops
  induction ops with
  | nil => intro st _ hb; exact hb
  | cons op rest ih =>
      intro st hall hb
      have h1 := applyOp_msgBound env op st (hall op (by simp)) hb
      have h2 := ih (applyOp env op st) (fun q hq => hall q (by simp [hq])) h1
      simpa [runOps] using h2

/-- C2 amended: for every interaction sequence that uses only on()
registrations (no once()), the message log never exceeds 100 entries, and
the insertion step of the on()-wrapper at capacity drops exactly the oldest
entry (index 0) before keeping the new one; once() registrations bypass the
cap and can push the log beyond 100. -/
theorem c2_amended (env : Nat → Payload → Bool) (ops : List Op)
    (h : ∀ op ∈ ops, isOnceOp op = false) :
    ((runOps env ops initSocket).messages).length ≤ 100 ∧
    (∀ (msgs : List SocketMessage) (m : SocketMessage), msgs.length = 100 →
      pushTrim msgs m = msgs.tail ++ [m]) := by
  constructor
  · have h0 : MsgBound initSocket := by
      refine ⟨by simp [initSocket], ?_⟩
      intro t ht p hp
      simp only [initSocket, Option.some.injEq] at ht
      subst ht
      have hall : ∀ q ∈ initTransport.handlers, isOnceW q.2 = false := by decide
      exact hall p hp
    exact (runOps_msgBound env ops initSocket h h0).1
  · intro msgs m hlen
    cases msgs with
    | nil => simp at hlen
    | cons a rest =>
        simp only [List.length_cons] at hlen
        simp only [pushTrim, List.cons_append, List.length_cons, List.length_append,
          List.length_nil]
        rw [if_pos (by omega)]
        simp

/-- C2 witness: a plain on() registration plus one delivery keeps the log
within the bound. -/
theorem c2_witness :
    (∀ op ∈ [Op.on "chat" 0, Op.deliver 0 "chat" (Payload.raw 1)], isOnceOp op = false) ∧
    ((runOps noThrow [Op.on "chat" 0, Op.deliver 0 "chat" (Payload.raw 1)] initSocket).messages).length ≤ 100 :=
  ⟨by decide, (c2_amended noThrow [Op.on "chat" 0, Op.deliver 0 "chat" (Payload.raw 1)] (by decide)).1⟩

/-! ### Claim C10 -/

/-- socket.off(event, fn) with a raw callback removes nothing when no raw
callback is registered (the class only ever registers wrappers). -/
theorem removeExact_direct_eq {l : List (String × THandler)} {ev : String} {cb : Nat}
    (h : ∀ p ∈ l, isDirectH p.2 = false) : removeExact l ev (THandler.direct cb) = l := by
  induction l with
  | nil => rfl
  | cons q rest ih =>
      have hq : ¬ q = (ev, THandler.direct cb) := by
        intro hq
        have hd := h q (List.mem_cons_self _ _)
        rw [hq] at hd
        simp [isDirectH] at hd
      rw [removeExact, if_neg hq, ih (fun p hp => h p (List.mem_cons_of_mem _ hp))]

/-- Running one transport handler never registers a raw callback. -/
theorem runHandler_noDirect (env : Nat → Payload → Bool) (now : Nat) (ev : String)
    (data : Payload) (h : THandler) (st : Socket) (hn : NoDirectState st) :
    NoDirectState (runHandler env now ev data h st).1 := by
  cases h with
  | lifecycle k =>
      show NoDirectState (handleLifecycle env now k data st)
      intro t ht p hp
      rw [(handleLifecycle_frame env now k data st).2.1] at ht
      exact hn t ht p hp
  | onWrapper cb => exact fun t ht p hp => hn t ht p hp
  | onceWrapper cb =>
      rcases hsock : st.socket with _ | t <;> simp only [runHandler, hsock]
      · exact fun t' ht' p hp => by simp at ht'
      · intro t' ht' p hp
        simp only [Option.some.injEq] at ht'
        subst ht'
        exact hn t hsock p (mem_removeOnceEntry hp)
  | connectResolver pid =>
      rcases hsock : st.socket with _ | t <;> simp only [runHandler, hsock]
      · exact hn
      · intro t' ht' p hp
        simp only [Option.some.injEq] at ht'
        subst ht'
        exact hn t hsock p (mem_removeResolverEntries hp)
  | errorResolver pid =>
      rcases hsock : st.socket with _ | t <;> simp only [runHandler, hsock]
      · exact hn
      · intro t' ht' p hp
        simp only [Option.some.injEq] at ht'
        subst ht'
        exact hn t hsock p (mem_removeResolverEntries hp)
  | direct cb => exact fun t ht p hp => hn t ht p hp

/-- The dispatch loop never registers a raw callback. -/
theorem runHandlers_noDirect (env : Nat → Payload → Bool) (now : Nat) (ev : String)
    (data : Payload) : ∀ (hs : List THandler) (st : Socket), NoDirectState st →
    NoDirectState (runHandlers env now ev data hs st) := by
  intro hs
  induction hs with
  | nil => intro st hn; exact hn
  | cons h rest ih =>
      intro st hn
      have h1 := runHandler_noDirect env now ev data h st hn
      rw [runHandlers]
      rcases hr : runHandler env now ev data h st with ⟨st1, ok⟩
      rw [hr] at h1
      cases ok
      · exact fun t ht p hp => h1 t ht p hp
      · exact ih st1 h1

/-- A transport delivery never registers a raw callback. -/
theorem emitTransport_noDirect (env : Nat → Payload → Bool) (now : Nat) (ev : String)
    (data : Payload) (st : Socket) (hn : NoDirectState st) :
    NoDirectState (emitTransport env now ev data st) := by
  rcases hsock : st.socket with _ | t <;> simp only [emitTransport, hsock]
  · exact hn
  · exact runHandlers_noDirect env now ev data _ st hn

/-- No public interaction ever registers a raw callback on the transport:
the class always wraps. -/
theorem applyOp_noDirect (env : Nat → Payload → Bool) (op : Op) (st : Socket)
    (hn : NoDirectState st) : NoDirectState (applyOp env op st) := by
  cases op
  next now s =>
      show NoDirectState (deliverSig env now s st)
      rcases hsock : st.socket with _ | t <;> simp only [deliverSig, hsock]
      · exact hn
      · apply emitTransport_noDirect
        intro t' ht' p hp
        simp only [Option.some.injEq] at ht'
        subst ht'
        exact hn t hsock p hp
  next now ev data =>
      show NoDirectState (deliverApp env now ev data st)
      rw [deliverApp]
      split
      · exact hn
      · exact emitTransport_noDirect env now ev data st hn
  next ev cb =>
      show NoDirectState (Socket.on ev cb st)
      rcases hsock : st.socket with _ | t <;> simp only [Socket.on, hsock]
      · exact fun t' ht' p hp => by simp at ht'
      · intro t' ht' p hp
        simp only [Option.some.injEq] at ht'
        subst ht'
        rcases List.mem_append.mp hp with h1 | h2
        · exact hn t hsock p h1
        · simp only [List.mem_singleton] at h2
          subst h2
          rfl
  next ev cb =>
      show NoDirectState (Socket.offCb ev cb st)
      by_cases hmem : cb ∈ (lookupEL st.eventListeners ev).getD [] <;>
        rcases hsock : st.socket with _ | t <;>
          simp only [Socket.offCb, hmem, hsock, if_true, if_false]
      · exact fun t' ht' p hp => by simp at ht'
      · intro t' ht' p hp
        simp only [Option.some.injEq] at ht'
        subst ht'
        exact hn t hsock p (mem_removeExact hp)
      · exact fun t' ht' p hp => hn t' ht' p hp
      · intro t' ht' p hp
        simp only [Option.some.injEq] at ht'
        subst ht'
        exact hn t hsock p (mem_removeExact hp)
  next ev =>
      show NoDirectState (Socket.offAll ev st)
      rcases hsock : st.socket with _ | t <;> simp only [Socket.offAll, hsock]
      · exact fun t' ht' p hp => hn t' (by simpa using ht') p hp
      · intro t' ht' p hp
        simp only [Option.some.injEq] at ht'
        subst ht'
        exact hn t hsock p (mem_removeAllForEvent hp)
  next ev cb =>
      show NoDirectState (Socket.once ev cb st)
      rcases hsock : st.socket with _ | t <;> simp only [Socket.once, hsock]
      · exact hn
      · intro t' ht' p hp
        simp only [Option.some.injEq] at ht'
        subst ht'
        rcases List.mem_append.mp hp with h1 | h2
        · exact hn t hsock p h1
        · simp only [List.mem_singleton] at h2
          subst h2
          rfl
  next ev data ack =>
      show NoDirectState (Socket.send ev data ack st).1
      rw [Socket.send]
      split
      · rcases hsock : st.socket with _ | t <;> simp only [hsock]
        · exact hn
        · intro t' ht' p hp
          simp only [Option.some.injEq] at ht'
          subst ht'
          exact hn t hsock p hp
      · exact fun t' ht' p hp => hn t' ht' p hp
  next =>
      show NoDirectState (Socket.connect st)
      rw [Socket.connect]
      split
      · exact hn
      · rcases hsock : st.socket with _ | t <;> simp only [hsock]
        · exact fun t' ht' p hp => hn t' (by simpa using ht') p hp
        · intro t' ht' p hp
          simp only [Option.some.injEq] at ht'
          subst ht'
          rcases List.mem_append.mp hp with h1 | h2
          · exact hn t hsock p h1
          · rcases List.mem_cons.mp h2 with h3 | h4
            · subst h3; rfl
            · simp only [List.mem_singleton] at h4
              subst h4
              rfl
  next now =>
      show NoDirectState (Socket.disconnect env now st)
      rcases hsock : st.socket with _ | t <;> simp only [Socket.disconnect, hsock]
      · exact hn
      · split
        · apply emitTransport_noDirect
          intro t' ht' p hp
          simp only [Option.some.injEq] at ht'
          subst ht'
          exact hn t hsock p hp
        · exact hn
  next now =>
      show NoDirectState (Socket.destroy env now st)
      rcases hsock : st.socket with _ | t <;> simp only [Socket.destroy, hsock]
      · exact fun t' ht' p hp => hn t' (by simpa [hsock] using ht') p hp
      · exact fun t' ht' p hp => by simp at ht'
  next =>
      show NoDirectState (Socket.clearMessages st)
      exact fun t' ht' p hp => hn t' ht' p hp

/-- Runs from construction never register a raw callback. -/
theorem runOps_noDirect (env : Nat → Payload → Bool) :
    ∀ (ops : List Op) (st : Socket), NoDirectState st →
      NoDirectState (runOps env ops st) := by
  intro ops
  induction ops with
  | nil => intro st hn; exact hn
  | cons op rest ih =>
      intro st hn
      have h1 := applyOp_noDirect env op st hn
      have h2 := ih (applyOp env op st) h1
      simpa [runOps] using h2

/-- Frame property of off(event, callback) for an unregistered callback:
nothing changes at all. -/
theorem offCb_frame (ev : String) (cb : Nat) (st : Socket)
    (h1 : cb ∉ listenersOf st ev) (h2 : NoDirectState st) :
    Socket.offCb ev cb st = st := by
  obtain ⟨sock, status, msgs, el, calls, e, w, u, r⟩ := st
  simp only [listenersOf] at h1
  rcases sock with _ | t
  · simp only [Socket.offCb, h1, if_false]
  · obtain ⟨th, tc, tcc, te⟩ := t
    simp only [Socket.offCb, h1, if_false]
    rw [removeExact_direct_eq (h2 (Transport.mk th tc tcc te) rfl)]

/-- C10 amended: off(event, callback) with a callback that is not registered
for the event leaves the whole coordinator state (registry, log, status,
transport) unchanged; in the typed variant it also returns normally, while
the untyped variant dereferences the nulled handle on a destroyed instance
and faults (see the counterexample). -/
theorem c10_off_frame (env : Nat → Payload → Bool) (ops : List Op) (ev : String) (cb : Nat)
    (h : cb ∉ listenersOf (runOps env ops initSocket) ev) :
    Socket.offCb ev cb (runOps env ops initSocket) = runOps env ops initSocket := by
  apply offCb_frame ev cb _ h
  apply runOps_noDirect
  intro t ht p hp
  simp only [initSocket, Option.some.injEq] at ht
  subst ht
  have hall : ∀ q ∈ initTransport.handlers, isDirectH q.2 = false := by decide
  exact hall p hp

/-- C10 witness: removing a callback that was never registered for "chat"
leaves the state after one on() registration untouched. -/
theorem c10_witness :
    Socket.offCb "chat" 5 (runOps noThrow [Op.on "chat" 0] initSocket) =
      runOps noThrow [Op.on "chat" 0] initSocket :=
  c10_off_frame noThrow [Op.on "chat" 0] "chat" 5 (by decide)

/-! ### Claim C9 -/

/-- Every internal handler except the connect one leaves a cleared connected
flag cleared. -/
theorem lifecycleStatus_connected_false (k : SigKind) (data : Payload) (now : Nat)
    (s : SocketStatus) (hk : k ≠ SigKind.connect) (hc : s.connected = false) :
    (lifecycleStatus k data now s).connected = false := by
  cases k with
  | connect => exact absurd rfl hk
  | disconnect =>
      rw [lifecycleStatus]
      split <;> rfl
  | connectError => rfl
  | reconnect => exact hc
  | reconnectAttempt => exact hc
  | reconnectError => exact hc
  | reconnectFailed => exact hc

/-- The disconnect handler always clears the connected flag. -/
theorem lifecycleStatus_disconnect_connected (data : Payload) (now : Nat) (s : SocketStatus) :
    (lifecycleStatus SigKind.disconnect data now s).connected = false := by
  rw [lifecycleStatus]
  split <;> rfl

/-- Any transport handler other than the internal connect handler leaves a
cleared connected flag cleared. -/
theorem runHandler_connected_false (env : Nat → Payload → Bool) (now : Nat) (ev : String)
    (data : Payload) (h : THandler) (st : Socket)
    (hh : h ≠ THandler.lifecycle SigKind.connect) (hc : st.status.connected = false) :
    (runHandler env now ev data h st).1.status.connected = false := by
  cases h with
  | lifecycle k =>
      have hk : k ≠ SigKind.connect := fun hk => hh (by rw [hk])
      show (handleLifecycle env now k data st).status.connected = false
      rw [handleLifecycle,
        (emitCustomEvent_frame env (lifecycleEventName k) (lifecycleEventPayload k data now)
          { st with status := lifecycleStatus k data now st.status }).2.2.1]
      exact lifecycleStatus_connected_false k data now st.status hk hc
  | onWrapper cb => exact hc
  | onceWrapper cb =>
      rcases hsock : st.socket with _ | t <;> simp only [runHandler, hsock] <;> exact hc
  | connectResolver pid =>
      rcases hsock : st.socket with _ | t <;> simp only [runHandler, hsock] <;> exact hc
  | errorResolver pid =>
      rcases hsock : st.socket with _ | t <;> simp only [runHandler, hsock] <;> exact hc
  | direct cb => exact hc

/-- With no internal connect handler among the dispatched handlers, a
cleared connected flag stays cleared across the whole dispatch. -/
theorem runHandlers_connected_false_preserve (env : Nat → Payload → Bool) (now : Nat)
    (ev : String) (data : Payload) : ∀ (hs : List THandler) (st : Socket),
    THandler.lifecycle SigKind.connect ∉ hs → st.status.connected = false →
    (runHandlers env now ev data hs st).status.connected = false := by
  intro hs
  induction hs with
  | nil => intro st _ hc; exact hc
  | cons h rest ih =>
      intro st hmem hc
      have hh : h ≠ THandler.lifecycle SigKind.connect := fun he => hmem (he ▸ List.mem_cons_self _ _)
      have h1 := runHandler_connected_false env now ev data h st hh hc
      rw [runHandlers]
      rcases hr : runHandler env now ev data h st with ⟨st1, ok⟩
      rw [hr] at h1
      cases ok
      · exact h1
      · exact ih st1 (fun he => hmem (List.mem_cons_of_mem _ he)) h1

/-- Every handler returns normally under the benign callback environment. -/
theorem runHandler_noThrow_ok (now : Nat) (ev : String) (data : Payload) (h : THandler)
    (st : Socket) : (runHandler noThrow now ev data h st).2 = true := by
  cases h <;> rcases hsock : st.socket with _ | t <;>
    simp [runHandler, noThrow, hsock]

/-- Under the benign environment, a dispatch that reaches the internal
disconnect handler and contains no internal connect handler ends with the
connected flag cleared. -/
theorem runHandlers_connected_false_set (now : Nat) (ev : String) (data : Payload) :
    ∀ (hs : List THandler) (st : Socket),
    THandler.lifecycle SigKind.disconnect ∈ hs →
    THandler.lifecycle SigKind.connect ∉ hs →
    (runHandlers noThrow now ev data hs st).status.connected = false := by
  intro hs
  induction hs with
  | nil => intro st hmem _; simp at hmem
  | cons h rest ih =>
      intro st hmem hnc
      by_cases hd : h = THandler.lifecycle SigKind.disconnect
      · subst hd
        show (runHandlers noThrow now ev data rest
          (handleLifecycle noThrow now SigKind.disconnect data st)).status.connected = false
        apply runHandlers_connected_false_preserve
        · exact fun he => hnc (List.mem_cons_of_mem _ he)
        · rw [handleLifecycle,
            (emitCustomEvent_frame noThrow (lifecycleEventName SigKind.disconnect)
              (lifecycleEventPayload SigKind.disconnect data now)
              { st with status := lifecycleStatus SigKind.disconnect data now st.status }).2.2.1]
          exact lifecycleStatus_disconnect_connected data now st.status
      · have hmem2 : THandler.lifecycle SigKind.disconnect ∈ rest := by
          rcases List.mem_cons.mp hmem with h1 | h2
          · exact absurd h1.symm hd
          · exact h2
        have hok := runHandler_noThrow_ok now ev data h st
        rw [runHandlers]
        rcases hr : runHandler noThrow now ev data h st with ⟨st1, ok⟩
        rw [hr] at hok
        simp only at hok
        subst hok
        exact ih st1 hmem2 (fun he => hnc (List.mem_cons_of_mem _ he))

/-- After destroy() the transport handle is nulled and the registry and the
log are cleared. -/
theorem destroy_clears (env : Nat → Payload → Bool) (now : Nat) (s : Socket) :
    (Socket.destroy env now s).socket = none ∧
    (Socket.destroy env now s).eventListeners = [] ∧
    (Socket.destroy env now s).messages = [] := by
  rcases hsock : s.socket with _ | t <;> simp [Socket.destroy, hsock]

/-- Clearing the registry and the log of a state where both are already
empty is the identity. -/
theorem update_clear_eq (x : Socket) (h1 : x.eventListeners = []) (h2 : x.messages = []) :
    { x with eventListeners := ([] : List (String × List Nat)),
             messages := ([] : List SocketMessage) } = x := by
  obtain ⟨a, b, c, d, e, f, g, h, i⟩ := x
  simp only at h1 h2
  subst h1
  subst h2
  rfl

/-- destroy() is idempotent. -/
theorem destroy_destroy (env env2 : Nat → Payload → Bool) (now now2 : Nat) (s : Socket) :
    Socket.destroy env2 now2 (Socket.destroy env now s) = Socket.destroy env now s := by
  obtain ⟨h1, h2, h3⟩ := destroy_clears env now s
  generalize hg : Socket.destroy env now s = d at h1 h2 h3 ⊢
  simp only [Socket.destroy, h1]
  rw [← h1]
  exact update_clear_eq d h2 h3

/-- Provided the internal disconnect handler is still attached (and no
internal connect handler was re-registered under the disconnect event),
destroy() always ends with the connected flag cleared. -/
theorem destroy_connected_false (now : Nat) (s : Socket)
    (h2 : ∀ t, s.socket = some t →
      THandler.lifecycle SigKind.connect ∉ handlersFor t.handlers "disconnect")
    (h3 : s.status.connected = true → ∃ t, s.socket = some t ∧ t.connected = true ∧
      THandler.lifecycle SigKind.disconnect ∈ handlersFor t.handlers "disconnect") :
    (Socket.destroy noThrow now s).status.connected = false := by
  rcases hsock : s.socket with _ | t
  · simp only [Socket.destroy, hsock]
    cases hb : s.status.connected with
    | false => rfl
    | true =>
        obtain ⟨t, ht, _⟩ := h3 hb
        rw [hsock] at ht
        exact absurd ht (by simp)
  · simp only [Socket.destroy, hsock]
    show (Socket.disconnect noThrow now s).status.connected = false
    simp only [Socket.disconnect, hsock]
    by_cases htc : t.connected
    · rw [if_pos htc]
      show (runHandlers noThrow now "disconnect" (Payload.str "io client disconnect")
        (handlersFor t.handlers "disconnect")
        { s with socket := some { t with connected := false } }).status.connected = false
      cases hb : s.status.connected with
      | true =>
          obtain ⟨t0, ht0, _, hmem⟩ := h3 hb
          rw [hsock] at ht0
          simp only [Option.some.injEq] at ht0
          subst ht0
          exact runHandlers_connected_false_set now "disconnect" (Payload.str "io client disconnect")
            (handlersFor t.handlers "disconnect") _ hmem (h2 t hsock)
      | false =>
          exact runHandlers_connected_false_preserve noThrow now "disconnect"
            (Payload.str "io client disconnect") (handlersFor t.handlers "disconnect") _
            (h2 t hsock) hb
    · rw [if_neg htc]
      cases hb : s.status.connected with
      | false => rfl
      | true =>
          obtain ⟨t0, ht0, htc0, _⟩ := h3 hb
          rw [hsock] at ht0
          simp only [Option.some.injEq] at ht0
          subst ht0
          exact absurd htc0 htc

/-- C9 amended: destroy() is idempotent, and after destroy() a send() is
fault-free and returns false (given intact internal handlers and benign
listeners); the typed variant guards every later operation on the nulled
handle with optional chaining, while the untyped variant dereferences the
nulled handle in on()/off()/once() and faults, as the counterexample shows. -/
theorem c9_amended (s : Socket) (now now2 : Nat) (ev : String) (data : Payload) (ack : Option Nat)
    (h2 : ∀ t, s.socket = some t →
      THandler.lifecycle SigKind.connect ∉ handlersFor t.handlers "disconnect")
    (h3 : s.status.connected = true → ∃ t, s.socket = some t ∧ t.connected = true ∧
      THandler.lifecycle SigKind.disconnect ∈ handlersFor t.handlers "disconnect") :
    (Socket.send ev data ack (Socket.destroy noThrow now s)).2 = false ∧
    Socket.destroy noThrow now2 (Socket.destroy noThrow now s) = Socket.destroy noThrow now s := by
  constructor
  · have hc := destroy_connected_false now s h2 h3
    simp [Socket.send, hc]
  · exact destroy_destroy noThrow noThrow now now2 s

/-- C9 witness: on a fresh instance, send() after destroy() returns false
and a second destroy() changes nothing. -/
theorem c9_witness :
    (Socket.send "x" (Payload.raw 0) none (Socket.destroy noThrow 0 initSocket)).2 = false ∧
    Socket.destroy noThrow 1 (Socket.destroy noThrow 0 initSocket) = Socket.destroy noThrow 0 initSocket :=
  c9_amended initSocket 0 1 "x" (Payload.raw 0) none
    (fun t ht => by
      simp only [initSocket, Option.some.injEq] at ht
      subst ht
      decide)
    (fun hc => absurd hc (by decide))

/-- C9 counterexample: the claim fails as stated on the untyped variant.
After destroy() nulls the transport handle, calling on() dereferences the
null handle without a guard and raises a TypeError (modelled as none). -/
theorem c9_counterexample :
    Socket.onJS "chat" 0 (Socket.destroy noThrow 0 initSocket) = none := by
  decide

/-- C6 counterexample: the claim fails as stated.  After a successful
connect, off("disconnect") with no callback detaches the internal disconnect
handler, so destroy() no longer clears the connected flag: the resulting
state still reads connected with a nulled transport handle, and send()
returns true while performing zero transport emissions (the whole state is
unchanged). -/
theorem c6_counterexample :
    (runOps noThrow [Op.sig 0 Sig.connect, Op.offAll "disconnect", Op.destroy 1]
      initSocket).status.connected = true ∧
    (runOps noThrow [Op.sig 0 Sig.connect, Op.offAll "disconnect", Op.destroy 1]
      initSocket).socket = none ∧
    (Socket.send "x" (Payload.raw 0) none
      (runOps noThrow [Op.sig 0 Sig.connect, Op.offAll "disconnect", Op.destroy 1]
        initSocket)).2 = true ∧
    (Socket.send "x" (Payload.raw 0) none
      (runOps noThrow [Op.sig 0 Sig.connect, Op.offAll "disconnect", Op.destroy 1]
        initSocket)).1 =
      runOps noThrow [Op.sig 0 Sig.connect, Op.offAll "disconnect", Op.destroy 1]
        initSocket := by
  decide

/-- C10 counterexample: the claim fails as stated on the untyped variant.
After destroy() nulls the handle the registry is empty, so callback 5 is not
registered for "chat", yet off("chat", 5) dereferences the null handle
without a guard and raises a TypeError (modelled as none) instead of
returning normally. -/
theorem c10_counterexample :
    listenersOf (Socket.destroy noThrow 0 initSocket) "chat" = [] ∧
    Socket.offJS "chat" 5 (Socket.destroy noThrow 0 initSocket) = none := by
  decide
